import Mathlib

set_option maxRecDepth 100000

/-!
Shallow embedding of `ai-ml/1.Data Cleanup/Datacleanup-practice-advance.py`:
a linear pandas data-cleaning script over one in-memory table.  Numeric
cells are exact rationals represented by the fraction type `Q` below
(gcd-normalised, positive denominator), so every pipeline value computes
by kernel reduction.  `toRat` interprets a `Q` as a Mathlib rational for
value-level statements.
-/

/-- Exact fraction with integer numerator and denominator.  All smart
constructors below keep the denominator positive and the fraction in
lowest terms, so structural equality coincides with value equality on
every value the pipeline builds (mirroring float value equality in the
script). -/
structure Q where
  num : Int
  den : Int
deriving DecidableEq, Repr

namespace Q

/-- Normalise `n / d` (for `d > 0`) to lowest terms. -/
def norm (n d : Int) : Q :=
  let g : Int := (Int.gcd n d : Nat)
  if g = 0 then ⟨0, 1⟩ else ⟨n / g, d / g⟩

def ofInt (n : Int) : Q := ⟨n, 1⟩

/-- A decimal literal with two fraction digits (`cents 120050 = 1200.50`),
used to embed the script's purchase-amount literals exactly. -/
def cents (n : Int) : Q := norm n 100

def add (a b : Q) : Q := norm (a.num * b.den + b.num * a.den) (a.den * b.den)

def sub (a b : Q) : Q := norm (a.num * b.den - b.num * a.den) (a.den * b.den)

def mul (a b : Q) : Q := norm (a.num * b.num) (a.den * b.den)

/-- Division by a positive count, used for arithmetic means. -/
def divNat (a : Q) (n : Nat) : Q := norm a.num (a.den * n)

/-- Value order on fractions with positive denominators. -/
def ble (a b : Q) : Bool := a.num * b.den ≤ b.num * a.den

def blt (a b : Q) : Bool := a.num * b.den < b.num * a.den

/-- Floor of a nonnegative fraction, as a natural number. -/
def floorNat (a : Q) : Nat := (a.num / a.den).toNat

end Q

/-- Interpretation of an embedded fraction as a Mathlib rational. -/
def toRat (a : Q) : ℚ := (a.num : ℚ) / (a.den : ℚ)

/-- One cell of the table: an integer, a string, an exact numeric value,
or a missing value (`na`, embedding `np.nan`). -/
inductive Cell
  | i (n : Int)
  | s (str : String)
  | q (v : Q)
  | na
deriving DecidableEq, Repr

/-- A DataFrame: a column-name schema plus rows aligned with it.  Row
equality (used by `drop_duplicates`) is full-tuple equality with
`na = na`, exactly as `pandas.DataFrame.duplicated` treats `NaN`. -/
structure Frame where
  cols : List String
  rows : List (List Cell)
deriving DecidableEq, Repr

namespace Frame

def colIdx (f : Frame) (c : String) : Nat := f.cols.indexOf c

/-- The values of one column, top to bottom. -/
def getCol (f : Frame) (c : String) : List Cell :=
  f.rows.map (fun r => r.getD (f.colIdx c) Cell.na)

/-- Apply `g` to every cell of column `c` (embeds a column assignment
such as `df[c] = df[c].apply(g)`). -/
def mapCol (f : Frame) (c : String) (g : Cell → Cell) : Frame :=
  { f with rows := f.rows.map (fun r =>
      (List.range r.length).map (fun j =>
        if j = f.colIdx c then g (r.getD j Cell.na) else r.getD j Cell.na)) }

/-- Drop the named columns (`df.drop(columns=...)`). -/
def dropColumns (f : Frame) (cs : List String) : Frame :=
  let keep : List Nat :=
    (List.range f.cols.length).filter
      (fun j => ¬ cs.contains (f.cols.getD j ""))
  { cols := keep.map (fun j => f.cols.getD j ""),
    rows := f.rows.map (fun r => keep.map (fun j => r.getD j Cell.na)) }

/-- Append a new column on the right (`df[c] = vals`). -/
def addCol (f : Frame) (c : String) (vals : List Cell) : Frame :=
  { cols := f.cols ++ [c],
    rows := (f.rows.zip vals).map (fun p => p.1 ++ [p.2]) }

/-- Number of rows. -/
def nrows (f : Frame) : Nat := f.rows.length

end Frame

/-! ## The script's literal dataset (lines 13-52 of the source) -/

/-- The 20-row literal handed to `pd.DataFrame(data)`.  Column order and
every value follow the source dictionary; `np.nan` becomes `Cell.na`. -/
def df20 : Frame :=
  { cols := ["customer_id", "name", "age", "city", "purchase_amount",
             "country", "pan_card", "product_category", "shirt_size", "grade"],
    rows :=
    [ [.i 101, .s "John",    .s "25",           .s "Bangalore", .q (Q.cents 120050), .s "India", .s "ABCDE1234F", .s "Electronics", .s "Small",  .s "A"],
      [.i 102, .s "Sarah",   .s "30",           .s "Chennai",   .q (Q.cents 80030),  .s "India", .s "FGHIJ5678K", .s "Clothing",    .s "Medium", .s "B"],
      [.i 103, .s "Mike",    .s "twenty-eight", .s "Hyderabad", .na,                 .s "India", .s "KLMNO9012P", .s "Electronics", .na,         .s "A"],
      [.i 104, .s "Emma",    .s "35",           .s "Delhi",     .q (Q.cents 150000), .s "India", .s "QRSTU3456V", .s "Furniture",   .s "Large",  .s "C"],
      [.i 105, .s "John",    .s "25",           .s "Bangalore", .q (Q.cents 120050), .s "India", .s "WXYZA7890B", .s "Electronics", .s "Small",  .s "B"],
      [.i 106, .s "Sarah",   .s "30",           .s "Chennai",   .q (Q.cents 80030),  .s "India", .s "CDEFG2345H", .s "Clothing",    .s "Medium", .s "A"],
      [.i 107, .s "Mike",    .s "twenty-eight", .s "Hyderabad", .na,                 .s "India", .s "IJKLM6789N", .s "Electronics", .na,         .s "B"],
      [.i 108, .s "David",   .s "40",           .s "Mumbai",    .q (Q.cents 220000), .s "India", .s "OPQRS0123T", .s "Furniture",   .s "XL",     .s "A"],
      [.i 109, .s "Lisa",    .s "22",           .s "Pune",      .q (Q.cents 95000),  .s "India", .s "UVWXY4567Z", .s "Clothing",    .s "Small",  .s "C"],
      [.i 110, .s "Tom",     .s "150",          .s "Bangalore", .q (Q.cents 5000000),.s "India", .s "ABCDF8901E", .s "Electronics", .s "Medium", .s "B"],
      [.i 111, .s "Jerry",   .s "28",           .s "Chennai",   .q (Q.cents 110000), .s "India", .s "GHIJK2345L", .s "Clothing",    .s "Large",  .s "A"],
      [.i 112, .s "Kate",    .s "33",           .s "Hyderabad", .na,                 .s "India", .s "MNOPQ6789R", .s "Furniture",   .s "XL",     .s "C"],
      [.i 113, .s "Bob",     .na,               .s "Delhi",     .q (Q.cents 130000), .s "India", .s "STUVW0123X", .s "Electronics", .s "Small",  .s "B"],
      [.i 114, .s "Alice",   .s "29",           .na,            .q (Q.cents 145000), .s "India", .s "YZABC4567D", .s "Clothing",    .na,         .s "A"],
      [.i 115, .s "Charlie", .s "31",           .s "Mumbai",    .q (Q.cents 180000), .s "India", .s "DEFGH8901J", .s "Furniture",   .s "Large",  .s "C"],
      [.i 116, .s "Diana",   .s "27",           .s "Bangalore", .q (Q.cents 125000), .s "India", .s "IJKLM2345P", .s "Electronics", .s "Medium", .s "B"],
      [.i 117, .s "Eve",     .s "26",           .na,            .na,                 .s "India", .s "NOPQR6789V", .s "Clothing",    .s "Small",  .s "A"],
      [.i 118, .s "Frank",   .na,               .s "Chennai",   .q (Q.cents 98000),  .s "India", .s "STUVW0123B", .s "Electronics", .s "XL",     .s "B"],
      [.i 119, .s "Grace",   .s "32",           .s "Pune",      .q (Q.cents 115000), .s "India", .s "XYZAB4567H", .s "Furniture",   .s "Medium", .s "C"],
      [.i 120, .s "Henry",   .s "24",           .s "Delhi",     .q (Q.cents 4500000),.s "India", .s "CDEFG8901N", .s "Electronics", .s "Large",  .s "A"] ] }

/-- `df = pd.concat([df, df.iloc[[4, 5, 6]]], ignore_index=True)`:
the 23-row working table with the three appended duplicate rows. -/
def df : Frame :=
  { cols := df20.cols,
    rows := df20.rows ++
      [df20.rows.getD 4 [], df20.rows.getD 5 [], df20.rows.getD 6 []] }


/-! ## Problem 1: wrong data types (source lines 122-125) -/

/-- `df_clean = df.copy()`. -/
def df_clean0 : Frame := df

/-- `df_clean['age'].replace('twenty-eight', '28')` on one cell. -/
def replaceTwentyEight (c : Cell) : Cell :=
  if c = .s "twenty-eight" then .s "28" else c

/-- Numeric value of a digit list, most significant first. -/
def digitsVal (cs : List Char) : Nat :=
  cs.foldl (fun a c => 10 * a + (c.toNat - 48)) 0

/-- Split a character list at its first dot. -/
def breakDot : List Char → (List Char × List Char)
  | [] => ([], [])
  | c :: rest =>
    if c = '.' then ([], rest)
    else
      let p := breakDot rest
      (c :: p.1, p.2)

/-- Parse a decimal token (digits, optionally one dot with digits on both
sides) to an exact fraction; anything else fails.  Models the numeric
grammar `pd.to_numeric` accepts for this dataset's tokens. -/
def parseNum (str : String) : Option Q :=
  let cs := str.data
  if ¬ cs.contains '.' then
    if ¬ cs.isEmpty ∧ cs.all Char.isDigit then some (Q.ofInt (digitsVal cs))
    else none
  else
    let a := (breakDot cs).1
    let b := (breakDot cs).2
    if ¬ a.isEmpty ∧ ¬ b.isEmpty ∧ ¬ b.contains '.' ∧
        a.all Char.isDigit ∧ b.all Char.isDigit then
      some (Q.norm (digitsVal a * (10 : Int) ^ b.length + digitsVal b)
        ((10 : Int) ^ b.length))
    else none

/-- `pd.to_numeric(..., errors='coerce')` on one cell: strings that fail
to parse become missing; missing stays missing. -/
def toNumericCell : Cell → Cell
  | .s str =>
    match parseNum str with
    | some v => .q v
    | none => .na
  | .q v => .q v
  | .i n => .q (Q.ofInt n)
  | .na => .na

/-- State after the type-fix stage (replace then coerce the age column). -/
def df_clean1 : Frame :=
  (df_clean0.mapCol "age" replaceTwentyEight).mapCol "age" toNumericCell

/-! ## Problem 2: duplicate records (source line 148) -/

/-- Keep-first deduplication with an accumulator of rows already seen. -/
def ddAux {α : Type} [DecidableEq α] (seen : List α) : List α → List α
  | [] => []
  | r :: rest =>
    if r ∈ seen then ddAux seen rest else r :: ddAux (r :: seen) rest

/-- `drop_duplicates` semantics on a list: keep the first occurrence of
each value, in original order. -/
def dropDuplicatesList {α : Type} [DecidableEq α] (l : List α) : List α :=
  ddAux [] l

/-- `df_clean.drop_duplicates()`: full-row equality, `na = na`. -/
def Frame.dropDups (f : Frame) : Frame :=
  { f with rows := dropDuplicatesList f.rows }

def df_clean2 : Frame := df_clean1.dropDups

/-! ## Problem 3: missing values (source lines 174-204) -/

/-- The numeric (non-missing) values of a column. -/
def colQ (f : Frame) (c : String) : List Q :=
  (f.getCol c).filterMap (fun x =>
    match x with
    | Cell.q v => some v
    | _ => none)

/-- The string (non-missing) values of a column. -/
def colS (f : Frame) (c : String) : List String :=
  (f.getCol c).filterMap (fun x =>
    match x with
    | Cell.s v => some v
    | _ => none)

def qsum (l : List Q) : Q := l.foldl Q.add (Q.ofInt 0)

/-- `Series.mean()`: arithmetic mean of the non-missing values. -/
def meanCol (f : Frame) (c : String) : Q :=
  (qsum (colQ f c)).divNat (colQ f c).length

def countS (v : String) (l : List String) : Nat :=
  (l.filter (fun x => x == v)).length

/-- Lexicographic order on character lists by Unicode code point, the
order Python string comparison and pandas sorting use. -/
def strLtAux : List Char → List Char → Bool
  | [], [] => false
  | [], _ :: _ => true
  | _ :: _, [] => false
  | a :: as, b :: bs =>
    if a.toNat < b.toNat then true
    else if b.toNat < a.toNat then false
    else strLtAux as bs

def strLt (a b : String) : Bool := strLtAux a.data b.data

/-- `Series.mode()[0]`: `mode()` returns the maximal-frequency values in
sorted order, so `[0]` is the lexicographically smallest of them. -/
def mode0 (l : List String) : String :=
  match (dropDuplicatesList l).filter
      (fun v => countS v l == ((dropDuplicatesList l).map
        (fun v => countS v l)).foldl max 0) with
  | [] => ""
  | c :: cs => cs.foldl (fun a b => if strLt b a then b else a) c

/-- `fillna`: replace missing cells of column `c` with `repl`. -/
def fillnaCol (f : Frame) (c : String) (repl : Cell) : Frame :=
  f.mapCol c (fun x => if x = .na then repl else x)

def age_mean : Q := meanCol df_clean2 "age"

def df_clean3 : Frame := fillnaCol df_clean2 "age" (.q age_mean)

def city_mode : String := mode0 (colS df_clean3 "city")

def df_clean4 : Frame := fillnaCol df_clean3 "city" (.s city_mode)

def purchase_mean : Q := meanCol df_clean4 "purchase_amount"

def df_clean5 : Frame :=
  fillnaCol df_clean4 "purchase_amount" (.q purchase_mean)

def size_mode : String := mode0 (colS df_clean5 "shirt_size")

def df_clean6 : Frame := fillnaCol df_clean5 "shirt_size" (.s size_mode)

/-! ## Problem 4: unimportant columns (source lines 239-240) -/

def columns_to_drop : List String := ["country", "pan_card"]

def df_clean7 : Frame := df_clean6.dropColumns columns_to_drop

/-- `Series.nunique()`: number of distinct non-missing values. -/
def nunique (f : Frame) (c : String) : Nat :=
  (dropDuplicatesList ((f.getCol c).filter (fun x => x != Cell.na))).length

/-! ## Problem 5 and 6: outlier capping by the 1.5-IQR rule
(source lines 255-296 and 310-332) -/

/-- Stable ascending insertion into a sorted list of fractions. -/
def insertQ (x : Q) : List Q → List Q
  | [] => [x]
  | y :: ys => if x.ble y then x :: y :: ys else y :: insertQ x ys

def sortQ (l : List Q) : List Q := l.foldr insertQ []

/-- `Series.quantile(p)` with the default linear interpolation: the value
at fractional position `p * (n - 1)` of the sorted data. -/
def quantile (l : List Q) (p : Q) : Q :=
  let srt := sortQ l
  let n := srt.length
  if n = 0 then Q.ofInt 0
  else
    let h := p.mul (Q.ofInt (n - 1 : Nat))
    let j := h.floorNat
    let f := h.sub (Q.ofInt j)
    let a := srt.getD j (Q.ofInt 0)
    let b := srt.getD (j + 1) a
    a.add (f.mul (b.sub a))

def Q1 : Q := quantile (colQ df_clean7 "purchase_amount") (Q.norm 1 4)

def Q3 : Q := quantile (colQ df_clean7 "purchase_amount") (Q.norm 3 4)

def IQR : Q := Q3.sub Q1

def lower_limit : Q := Q1.sub ((Q.norm 3 2).mul IQR)

def upper_limit : Q := Q3.add ((Q.norm 3 2).mul IQR)

/-- The capping lambda `lower if x < lower else (upper if x > upper else x)`
applied to a numeric cell; non-numeric cells pass through. -/
def clampCell (lo hi : Q) : Cell → Cell
  | .q v => .q (if v.blt lo then lo else if hi.blt v then hi else v)
  | c => c

def df_clean8 : Frame :=
  df_clean7.mapCol "purchase_amount" (clampCell lower_limit upper_limit)

def Q1_age : Q := quantile (colQ df_clean8 "age") (Q.norm 1 4)

def Q3_age : Q := quantile (colQ df_clean8 "age") (Q.norm 3 4)

def IQR_age : Q := Q3_age.sub Q1_age

def lower_limit_age : Q := Q1_age.sub ((Q.norm 3 2).mul IQR_age)

def upper_limit_age : Q := Q3_age.add ((Q.norm 3 2).mul IQR_age)

def df_clean9 : Frame :=
  df_clean8.mapCol "age" (clampCell lower_limit_age upper_limit_age)

/-! ## Bonus: categorical encodings (source lines 356-390) -/

/-- Ascending lexicographic insertion for strings. -/
def insertS (x : String) : List String → List String
  | [] => [x]
  | y :: ys => if strLt x y then x :: y :: ys else y :: insertS x ys

def sortStr (l : List String) : List String := l.foldr insertS []

/-- The fitted categories of the one-hot encoder: sorted distinct cities. -/
def city_categories : List String :=
  sortStr (dropDuplicatesList (colS df_clean9 "city"))

/-- `pd.get_dummies(df_clean['city'], prefix='city', drop_first=True,
dtype=int)`: indicator columns for every sorted distinct city except the
first, as a separate frame (the source never merges it back). -/
def city_encoded : Frame :=
  { cols := (city_categories.drop 1).map (fun c => "city_" ++ c),
    rows := (df_clean9.getCol "city").map (fun cell =>
      (city_categories.drop 1).map
        (fun c => if cell = .s c then Cell.i 1 else Cell.i 0)) }

/-- `OrdinalEncoder(categories=[order])` on one cell: the rank of the
value in the supplied order, as a float. -/
def rankIn (order : List String) : Cell → Cell
  | .s v => .q (Q.ofInt (order.indexOf v))
  | _ => .na

def size_order : List String := ["Small", "Medium", "Large", "XL"]

def df_clean10 : Frame :=
  df_clean9.addCol "size_encoded"
    ((df_clean9.getCol "shirt_size").map (rankIn size_order))

def grade_order : List String := ["C", "B", "A"]

def df_clean11 : Frame :=
  df_clean10.addCol "grade_encoded"
    ((df_clean10.getCol "grade").map (rankIn grade_order))

/-- `LabelEncoder` classes for product category: sorted distinct values. -/
def category_classes : List String :=
  sortStr (dropDuplicatesList (colS df_clean11 "product_category"))

def df_clean12 : Frame :=
  df_clean11.addCol "category_encoded"
    ((df_clean11.getCol "product_category").map (fun c =>
      match c with
      | Cell.s v => Cell.i (category_classes.indexOf v)
      | _ => Cell.na))

/-! ## Derived notions used by the verification -/

/-- Number of missing cells in a column. -/
def countNa (f : Frame) (c : String) : Nat :=
  ((f.getCol c).filter (fun x => x == Cell.na)).length

/-- Every value of the list lies in the closed interval `[lo, hi]`. -/
def allWithinQ (lo hi : Q) (l : List Q) : Bool :=
  l.all (fun x => lo.ble x && x.ble hi)

/-- The IQR lower bound of a field state, `Q1 - 1.5 * (Q3 - Q1)`. -/
def lowerOf (l : List Q) : Q :=
  (quantile l (Q.norm 1 4)).sub
    ((Q.norm 3 2).mul ((quantile l (Q.norm 3 4)).sub (quantile l (Q.norm 1 4))))

/-- The IQR upper bound of a field state, `Q3 + 1.5 * (Q3 - Q1)`. -/
def upperOf (l : List Q) : Q :=
  (quantile l (Q.norm 3 4)).add
    ((Q.norm 3 2).mul ((quantile l (Q.norm 3 4)).sub (quantile l (Q.norm 1 4))))

/-- One application of the outlier capper to a numeric field state:
recompute both IQR bounds from the current values and clamp every value
to them, exactly as the script does for each of its two fields. -/
def capColumn (l : List Q) : List Q :=
  l.map (fun x =>
    if x.blt (lowerOf l) then lowerOf l
    else if (upperOf l).blt x then upperOf l
    else x)

/-- Maximal frequency over the distinct values of a list of strings. -/
def maxCountS (l : List String) : Nat :=
  ((dropDuplicatesList l).map (fun v => countS v l)).foldl max 0

/-- Modelled from the spec: the tie-break the spec asserts for the
missing-value mode, "first-encountered value (in row order) among the
maximal-frequency set".  Stated for comparison with the source's
`mode0`, which instead takes the head of the sorted maximal set. -/
def modeFirstEncountered (l : List String) : String :=
  match l.filter (fun v => countS v l == maxCountS l) with
  | [] => ""
  | c :: _ => c

/-- The arithmetic mean as a Mathlib rational, written from the spec's
words ("arithmetic mean of non-missing values") independently of the
pipeline's fraction arithmetic. -/
def meanSpec (l : List Q) : ℚ := (l.map toRat).sum / l.length

/-! ## The script as a state machine over its two named tables

The source is a linear script whose only mutable state after line 122 is
the pair of tables `df` and `df_clean`.  Each stage below is the exact
frame transformation of the corresponding source section, lifted to that
pair; `df.copy()` is value copy, as in pandas. -/

structure PipeState where
  df : Frame
  df_clean : Frame
deriving DecidableEq

/-- Initial state after `df_clean = df.copy()` (line 122). -/
def initState : PipeState := { df := df, df_clean := df }

/-- Problem 1: fix the age dtype. -/
def stTypes (st : PipeState) : PipeState :=
  { st with df_clean :=
      (st.df_clean.mapCol "age" replaceTwentyEight).mapCol "age" toNumericCell }

/-- Problem 2: drop duplicate rows. -/
def stDedup (st : PipeState) : PipeState :=
  { st with df_clean := st.df_clean.dropDups }

/-- Problem 3: impute the four treated columns in source order. -/
def stImpute (st : PipeState) : PipeState :=
  let t1 := fillnaCol st.df_clean "age" (.q (meanCol st.df_clean "age"))
  let t2 := fillnaCol t1 "city" (.s (mode0 (colS t1 "city")))
  let t3 := fillnaCol t2 "purchase_amount" (.q (meanCol t2 "purchase_amount"))
  let t4 := fillnaCol t3 "shirt_size" (.s (mode0 (colS t3 "shirt_size")))
  { st with df_clean := t4 }

/-- Problem 4: drop the two hard-coded columns. -/
def stPrune (st : PipeState) : PipeState :=
  { st with df_clean := st.df_clean.dropColumns columns_to_drop }

/-- Cap one numeric column of a frame with bounds from its current values. -/
def capFrame (f : Frame) (c : String) : Frame :=
  f.mapCol c (clampCell (lowerOf (colQ f c)) (upperOf (colQ f c)))

/-- Problem 5: cap purchase-amount outliers. -/
def stCapPurchase (st : PipeState) : PipeState :=
  { st with df_clean := capFrame st.df_clean "purchase_amount" }

/-- Problem 6: cap age outliers. -/
def stCapAge (st : PipeState) : PipeState :=
  { st with df_clean := capFrame st.df_clean "age" }

/-- Bonus section: add the three encoded columns to `df_clean`
(the one-hot frame stays separate in the source and touches neither
table). -/
def stEncode (st : PipeState) : PipeState :=
  let f := st.df_clean
  let t1 := f.addCol "size_encoded" ((f.getCol "shirt_size").map (rankIn size_order))
  let t2 := t1.addCol "grade_encoded" ((t1.getCol "grade").map (rankIn grade_order))
  let t3 := t2.addCol "category_encoded"
    ((t2.getCol "product_category").map (fun c =>
      match c with
      | Cell.s v => Cell.i ((sortStr (dropDuplicatesList (colS t2 "product_category"))).indexOf v)
      | _ => Cell.na))
  { st with df_clean := t3 }

/-- The whole script, start to finish. -/
def finalState : PipeState :=
  stEncode (stCapAge (stCapPurchase (stPrune (stImpute (stDedup (stTypes initState))))))


/-- A cell holding a parsed numeric value. -/
def isNumCell : Cell → Bool
  | .q _ => true
  | _ => false

/-! ## General properties of keep-first deduplication -/

theorem mem_ddAux {α : Type} [DecidableEq α] {x : α} :
    ∀ (l seen : List α), x ∈ ddAux seen l ↔ x ∈ l ∧ x ∉ seen := by
  intro l
  induction l with
  | nil => intro seen; simp [ddAux]
  | cons r rest ih =>
    intro seen
    by_cases hr : r ∈ seen
    · rw [show ddAux seen (r :: rest) = ddAux seen rest from by simp [ddAux, hr]]
      rw [ih]
      constructor
      · rintro ⟨h1, h2⟩; exact ⟨List.mem_cons_of_mem r h1, h2⟩
      · rintro ⟨h1, h2⟩
        rcases List.mem_cons.mp h1 with h3 | h3
        · exact absurd (by rw [h3]; exact hr) h2
        · exact ⟨h3, h2⟩
    · rw [show ddAux seen (r :: rest) = r :: ddAux (r :: seen) rest from by
        simp [ddAux, hr]]
      simp only [List.mem_cons, ih]
      constructor
      · rintro (h1 | ⟨h1, h2⟩)
        · exact ⟨Or.inl h1, by rw [h1]; exact hr⟩
        · exact ⟨Or.inr h1, fun hx => h2 (Or.inr hx)⟩
      · rintro ⟨h1 | h1, h2⟩
        · exact Or.inl h1
        · by_cases hxr : x = r
          · exact Or.inl hxr
          · exact Or.inr ⟨h1, fun hmem => hmem.elim hxr h2⟩

theorem nodup_ddAux {α : Type} [DecidableEq α] :
    ∀ (l seen : List α), (ddAux seen l).Nodup := by
  intro l
  induction l with
  | nil => intro seen; simp [ddAux]
  | cons r rest ih =>
    intro seen
    by_cases hr : r ∈ seen
    · simpa [ddAux, hr] using ih seen
    · rw [show ddAux seen (r :: rest) = r :: ddAux (r :: seen) rest from by
        simp [ddAux, hr]]
      refine List.nodup_cons.mpr ⟨?_, ih (r :: seen)⟩
      intro hmem
      exact ((mem_ddAux rest (r :: seen)).mp hmem).2 (List.mem_cons_self r seen)

theorem ddAux_sublist {α : Type} [DecidableEq α] :
    ∀ (l seen : List α), List.Sublist (ddAux seen l) l := by
  intro l
  induction l with
  | nil => intro seen; simp [ddAux]
  | cons r rest ih =>
    intro seen
    by_cases hr : r ∈ seen
    · rw [show ddAux seen (r :: rest) = ddAux seen rest from by simp [ddAux, hr]]
      exact (ih seen).cons r
    · rw [show ddAux seen (r :: rest) = r :: ddAux (r :: seen) rest from by
        simp [ddAux, hr]]
      exact (ih (r :: seen)).cons₂ r

theorem ddAux_congr_seen {α : Type} [DecidableEq α] :
    ∀ (l s1 s2 : List α), (∀ y ∈ l, (y ∈ s1 ↔ y ∈ s2)) →
      ddAux s1 l = ddAux s2 l := by
  intro l
  induction l with
  | nil => intro s1 s2 _; rfl
  | cons r rest ih =>
    intro s1 s2 h
    have hr := h r (List.mem_cons_self r rest)
    by_cases h1 : r ∈ s1
    · have h2 : r ∈ s2 := hr.mp h1
      rw [show ddAux s1 (r :: rest) = ddAux s1 rest from by simp [ddAux, h1],
        show ddAux s2 (r :: rest) = ddAux s2 rest from by simp [ddAux, h2]]
      exact ih s1 s2 (fun y hy => h y (List.mem_cons_of_mem r hy))
    · have h2 : r ∉ s2 := fun hc => h1 (hr.mpr hc)
      rw [show ddAux s1 (r :: rest) = r :: ddAux (r :: s1) rest from by
          simp [ddAux, h1],
        show ddAux s2 (r :: rest) = r :: ddAux (r :: s2) rest from by
          simp [ddAux, h2]]
      refine congrArg (r :: ·) (ih (r :: s1) (r :: s2) (fun y hy => ?_))
      simp only [List.mem_cons]
      exact or_congr Iff.rfl (h y (List.mem_cons_of_mem r hy))

theorem ddAux_filter {α : Type} [DecidableEq α] (x : α) :
    ∀ (l seen : List α), x ∈ seen →
      ddAux seen l = ddAux seen (l.filter (fun y => decide (y ≠ x))) := by
  intro l
  induction l with
  | nil => intro seen _; rfl
  | cons r rest ih =>
    intro seen hx
    by_cases hrx : r = x
    · subst hrx
      rw [show (r :: rest).filter (fun y => decide (y ≠ r)) =
          rest.filter (fun y => decide (y ≠ r)) from by simp [List.filter_cons]]
      rw [show ddAux seen (r :: rest) = ddAux seen rest from by simp [ddAux, hx]]
      exact ih seen hx
    · rw [show (r :: rest).filter (fun y => decide (y ≠ x)) =
          r :: rest.filter (fun y => decide (y ≠ x)) from by
        simp [List.filter_cons, bne_iff_ne, hrx]]
      by_cases hr : r ∈ seen
      · rw [show ddAux seen (r :: rest) = ddAux seen rest from by simp [ddAux, hr],
          show ddAux seen (r :: rest.filter (fun y => decide (y ≠ x))) =
            ddAux seen (rest.filter (fun y => decide (y ≠ x))) from by simp [ddAux, hr]]
        exact ih seen hx
      · rw [show ddAux seen (r :: rest) = r :: ddAux (r :: seen) rest from by
            simp [ddAux, hr],
          show ddAux seen (r :: rest.filter (fun y => decide (y ≠ x))) =
            r :: ddAux (r :: seen) (rest.filter (fun y => decide (y ≠ x))) from by
            simp [ddAux, hr]]
        exact congrArg (r :: ·) (ih (r :: seen) (List.mem_cons_of_mem r hx))

theorem dropDuplicatesList_cons {α : Type} [DecidableEq α] (x : α) (l : List α) :
    dropDuplicatesList (x :: l) =
      x :: dropDuplicatesList (l.filter (fun y => decide (y ≠ x))) := by
  show ddAux [] (x :: l) = x :: ddAux [] (l.filter (fun y => decide (y ≠ x)))
  rw [show ddAux [] (x :: l) = x :: ddAux [x] l from by simp [ddAux]]
  rw [ddAux_filter x l [x] (List.mem_singleton_self x)]
  refine congrArg (x :: ·) (ddAux_congr_seen _ [x] [] (fun y hy => ?_))
  have hyx : y ≠ x := by
    have := List.of_mem_filter hy
    simpa [bne_iff_ne] using this
  simp [hyx]

theorem sum_map_sub_one {β : Type} (c : β → Nat) :
    ∀ (D : List β), (∀ r ∈ D, 1 ≤ c r) →
      ((D.map (fun r => c r - 1)).sum = (D.map c).sum - D.length ∧
        D.length ≤ (D.map c).sum) := by
  intro D
  induction D with
  | nil => intro _; simp
  | cons a D ih =>
    intro h
    have ha := h a (List.mem_cons_self a D)
    have hih := ih (fun r hr => h r (List.mem_cons_of_mem a hr))
    simp only [List.map_cons, List.sum_cons, List.length_cons]
    omega

/-- Claim C6: the duplicate-elimination stage treats rows as duplicates
iff all fields compare equal (missing equals missing, which is row
equality of the embedding), keeps the first occurrence of each group in
original order (the recursive filter equation), drops all later exact
matches (the result has no duplicate rows and is a subsequence of the
input with the same members), its output length is the input length
minus the sum over duplicate groups of occurrences minus one, and on the
script's 23-row input it yields 20 rows. -/
theorem claimC6_drop_duplicates :
    (∀ (α : Type) [DecidableEq α] (l : List α),
      (dropDuplicatesList l).Nodup ∧
      List.Sublist (dropDuplicatesList l) l ∧
      (∀ x, x ∈ dropDuplicatesList l ↔ x ∈ l) ∧
      (∀ (x : α) (t : List α),
        dropDuplicatesList (x :: t) =
          x :: dropDuplicatesList (t.filter (fun y => decide (y ≠ x)))) ∧
      (dropDuplicatesList l).length =
        l.length - ((dropDuplicatesList l).map (fun r => l.count r - 1)).sum) ∧
    df.nrows = 23 ∧ (Frame.dropDups df_clean1).nrows = 20 := by
  refine ⟨?_, by decide, by decide⟩
  intro α _ l
  have hmem : ∀ x, x ∈ dropDuplicatesList l ↔ x ∈ l := by
    intro x
    show x ∈ ddAux [] l ↔ x ∈ l
    rw [mem_ddAux l []]
    simp
  have hnd : (dropDuplicatesList l).Nodup := nodup_ddAux l []
  have hsub : List.Sublist (dropDuplicatesList l) l := ddAux_sublist l []
  refine ⟨hnd, hsub, hmem, fun x t => dropDuplicatesList_cons x t, ?_⟩
  have hperm : List.Perm (dropDuplicatesList l) l.dedup :=
    (List.perm_ext_iff_of_nodup hnd (List.nodup_dedup l)).mpr
      (fun a => by rw [hmem a, List.mem_dedup])
  have hsum : ((dropDuplicatesList l).map (fun r => l.count r)).sum = l.length := by
    rw [(hperm.map (fun r => l.count r)).sum_eq]
    exact List.sum_map_count_dedup_eq_length l
  have hones : ∀ r ∈ dropDuplicatesList l, 1 ≤ l.count r := fun r hr =>
    List.count_pos_iff.mpr ((hmem r).mp hr)
  have hsub1 : ((dropDuplicatesList l).map (fun r => l.count r - 1)).sum =
      ((dropDuplicatesList l).map (fun r => l.count r)).sum -
        (dropDuplicatesList l).length ∧
      (dropDuplicatesList l).length ≤
        ((dropDuplicatesList l).map (fun r => l.count r)).sum :=
    sum_map_sub_one (fun r => l.count r) (dropDuplicatesList l) hones
  have hlen : (dropDuplicatesList l).length ≤ l.length := hsub.length_le
  omega

/-! ## Order facts for the fraction type and the outlier capper -/

theorem Q.blt_eq_false_of_ble {a b : Q} (h : Q.ble a b = true) :
    Q.blt b a = false := by
  simp only [Q.ble, decide_eq_true_eq] at h
  simp only [Q.blt, decide_eq_false_iff_not]
  exact Int.not_lt.mpr h

theorem capColumn_id_of_within {l : List Q}
    (h : allWithinQ (lowerOf l) (upperOf l) l = true) : capColumn l = l := by
  simp only [allWithinQ, List.all_eq_true, Bool.and_eq_true] at h
  unfold capColumn
  have hpt : ∀ x ∈ l,
      (if x.blt (lowerOf l) then lowerOf l
        else if (upperOf l).blt x then upperOf l else x) = x := by
    intro x hx
    have hx2 := h x hx
    rw [Q.blt_eq_false_of_ble hx2.1, Q.blt_eq_false_of_ble hx2.2]
    simp
  rw [List.map_congr_left hpt]
  simp

/-- Claim C8 (amended): the outlier capper is idempotent on any field
state whose first capping pass leaves every value inside the bounds
recomputed from the capped values — which holds for both of the
pipeline's fields — but not on arbitrary field states. -/
theorem claimC8_capper_idempotent_when_stable (l : List Q)
    (h : allWithinQ (lowerOf (capColumn l)) (upperOf (capColumn l))
      (capColumn l) = true) :
    capColumn (capColumn l) = capColumn l :=
  capColumn_id_of_within h

theorem claimC8_witness :
    capColumn (capColumn (colQ df_clean7 "purchase_amount")) =
      capColumn (colQ df_clean7 "purchase_amount") :=
  claimC8_capper_idempotent_when_stable _ (by decide)

/-- Claim C8 counterexample: on the field state `[0, 0, 0, 16]` a second
application of the capper changes the values again (first pass caps 16
to 10, second pass caps 10 to 25/4), so the capper is not idempotent for
arbitrary numeric field states. -/
theorem claimC8_counterexample :
    (capColumn (capColumn [⟨0, 1⟩, ⟨0, 1⟩, ⟨0, 1⟩, ⟨16, 1⟩])).map toRat ≠
      (capColumn [⟨0, 1⟩, ⟨0, 1⟩, ⟨0, 1⟩, ⟨16, 1⟩]).map toRat := by
  have h1 : capColumn [⟨0, 1⟩, ⟨0, 1⟩, ⟨0, 1⟩, (⟨16, 1⟩ : Q)] =
      [⟨0, 1⟩, ⟨0, 1⟩, ⟨0, 1⟩, ⟨10, 1⟩] := by decide
  have h2 : capColumn [⟨0, 1⟩, ⟨0, 1⟩, ⟨0, 1⟩, (⟨10, 1⟩ : Q)] =
      [⟨0, 1⟩, ⟨0, 1⟩, ⟨0, 1⟩, ⟨25, 4⟩] := by decide
  rw [h1, h2]
  simp only [List.map_cons, List.map_nil, toRat, ne_eq, List.cons.injEq]
  norm_num

/-- Claim C7: the type-normalization stage maps the one textual token
twenty-eight to 28 and parses it to the numeric 28; it is a total
function on any token list (length preserved, every output cell numeric
or missing, never an error), any other unparsable token becomes missing,
and on the script's own age column two missing cells remain with every
other cell numeric. -/
theorem claimC7_type_normalization (toks : List Cell) :
    ((toks.map replaceTwentyEight).map toNumericCell).length = toks.length ∧
    (∀ c ∈ (toks.map replaceTwentyEight).map toNumericCell,
      c = Cell.na ∨ ∃ v, c = Cell.q v) ∧
    toNumericCell (replaceTwentyEight (Cell.s "twenty-eight")) = Cell.q ⟨28, 1⟩ ∧
    (∀ str, parseNum str = none → str ≠ "twenty-eight" →
      toNumericCell (replaceTwentyEight (Cell.s str)) = Cell.na) ∧
    countNa df_clean1 "age" = 2 ∧
    ((df_clean1.getCol "age").all
      (fun c => c == Cell.na || isNumCell c)) = true := by
  refine ⟨by simp, ?_, by decide, ?_, by decide, by decide⟩
  · intro c hc
    rcases List.mem_map.mp hc with ⟨y, _, rfl⟩
    cases y with
    | s str =>
      cases h : parseNum str with
      | some v => exact Or.inr ⟨v, by simp [toNumericCell, h]⟩
      | none => exact Or.inl (by simp [toNumericCell, h])
    | q v => exact Or.inr ⟨v, rfl⟩
    | i n => exact Or.inr ⟨Q.ofInt n, rfl⟩
    | na => exact Or.inl rfl
  · intro str hp hne
    have hre : replaceTwentyEight (Cell.s str) = Cell.s str := by
      simp [replaceTwentyEight, hne]
    rw [hre]
    simp [toNumericCell, hp]

theorem claimC7_witness :
    toNumericCell (replaceTwentyEight (Cell.s "hello")) = Cell.na :=
  (claimC7_type_normalization []).2.2.2.1 "hello" (by decide) (by decide)

/-! ## Claim C1: end-to-end figures -/

/-- Claim C1 counterexample: the figures documented in the script's
hard-coded summary block do not hold of its computation — the imputed
age mean is 643/18, not 29.45; the imputed purchase mean is 7042.6, not
1445.33; the age cap upper bound is 43.625, not 42.5; and the final
purchase-amount column contains 15900.25, far above 2551.77. -/
theorem claimC1_counterexample :
    toRat age_mean ≠ 29.45 ∧
    toRat purchase_mean ≠ 1445.33 ∧
    toRat upper_limit_age ≠ 42.5 ∧
    ∃ x ∈ colQ df_clean9 "purchase_amount", 2551.78 < toRat x := by
  refine ⟨?_, ?_, ?_, ⟨63601, 4⟩, by decide, ?_⟩
  · rw [show age_mean = ⟨643, 18⟩ from by decide]
    norm_num [toRat]
  · rw [show purchase_mean = ⟨35213, 5⟩ from by decide]
    norm_num [toRat]
  · rw [show upper_limit_age = ⟨349, 8⟩ from by decide]
    norm_num [toRat]
  · norm_num [toRat]

/-- Claim C1 (amended): the pipeline on the literal 20-row dataset plus
the 3 appended duplicates yields exactly 20 rows with zero missing
values in age, city, purchase-amount and size; every purchase amount
lies within the computed limits [-7720.15, 15900.25] and every age
within [16.625, 43.625]; the imputed age mean is 643/18 (about 35.72),
the imputed purchase mean is 7042.6, and the age cap upper bound is
43.625 — not the stale figures 29.45 / 1445.33 / [348.23, 2551.77] /
42.5 printed by the script's summary block. -/
theorem claimC1_pipeline_figures :
    df_clean9.nrows = 20 ∧
    countNa df_clean9 "age" = 0 ∧ countNa df_clean9 "city" = 0 ∧
    countNa df_clean9 "purchase_amount" = 0 ∧
    countNa df_clean9 "shirt_size" = 0 ∧
    allWithinQ lower_limit upper_limit (colQ df_clean9 "purchase_amount") = true ∧
    allWithinQ lower_limit_age upper_limit_age (colQ df_clean9 "age") = true ∧
    toRat age_mean = 643 / 18 ∧
    toRat purchase_mean = 7042.6 ∧
    toRat lower_limit = -7720.15 ∧ toRat upper_limit = 15900.25 ∧
    toRat lower_limit_age = 16.625 ∧ toRat upper_limit_age = 43.625 := by
  refine ⟨by decide, by decide, by decide, by decide, by decide, by decide,
    by decide, ?_, ?_, ?_, ?_, ?_, ?_⟩
  · rw [show age_mean = ⟨643, 18⟩ from by decide]
    norm_num [toRat]
  · rw [show purchase_mean = ⟨35213, 5⟩ from by decide]
    norm_num [toRat]
  · rw [show lower_limit = ⟨-154403, 20⟩ from by decide]
    norm_num [toRat]
  · rw [show upper_limit = ⟨63601, 4⟩ from by decide]
    norm_num [toRat]
  · rw [show lower_limit_age = ⟨133, 8⟩ from by decide]
    norm_num [toRat]
  · rw [show upper_limit_age = ⟨349, 8⟩ from by decide]
    norm_num [toRat]

/-! ## Claim C2: column pruning -/

/-- Claim C2 counterexample: it is not the case that every field of the
pruned table has unique-count strictly between 1 and the row count —
customer_id survives the pruning stage with 20 distinct values in a
20-row table. -/
theorem claimC2_counterexample :
    ¬ (∀ c ∈ df_clean7.cols, 1 < nunique df_clean7 c ∧
        nunique df_clean7 c < df_clean7.nrows) := by
  intro h
  have h2 := h "customer_id" (by decide)
  have h3 : nunique df_clean7 "customer_id" = 20 := by decide
  have h4 : df_clean7.nrows = 20 := by decide
  omega

/-- Claim C2 (amended): the pruning stage drops exactly the two
hard-coded fields — country, whose values are all identical, and
pan_card, whose values are all distinct — leaving the other eight
fields; the cardinality rule is not applied generally, since
customer_id survives with unique-count equal to the row count, while
every remaining field other than customer_id does have unique-count
strictly between 1 and the row count. -/
theorem claimC2_column_pruning :
    df_clean7.cols = ["customer_id", "name", "age", "city",
      "purchase_amount", "product_category", "shirt_size", "grade"] ∧
    nunique df_clean6 "country" = 1 ∧
    nunique df_clean6 "pan_card" = df_clean6.nrows ∧
    nunique df_clean7 "customer_id" = df_clean7.nrows ∧
    (∀ c ∈ df_clean7.cols, c ≠ "customer_id" →
      1 < nunique df_clean7 c ∧ nunique df_clean7 c < df_clean7.nrows) := by
  refine ⟨by decide, by decide, by decide, by decide, by decide⟩

theorem claimC2_witness :
    1 < nunique df_clean7 "name" ∧ nunique df_clean7 "name" < df_clean7.nrows :=
  claimC2_column_pruning.2.2.2.2 "name" (by decide) (by decide)

/-! ## Claim C3: mode imputation tie-break -/

/-- Claim C3 counterexample: for the shirt-size field the maximal
frequency is shared by Small and Medium; the first-encountered
maximal-frequency value in row order is Small, yet the scalar the stage
substitutes is Medium, so the tie-break is not first-encountered. -/
theorem claimC3_counterexample :
    size_mode = "Medium" ∧
    modeFirstEncountered (colS df_clean5 "shirt_size") = "Small" ∧
    size_mode ≠ modeFirstEncountered (colS df_clean5 "shirt_size") := by
  refine ⟨by decide, by decide, by decide⟩

/-- Claim C3 (amended): for each categorical field the substituted
scalar is a most frequent non-missing value, and when several values
share the maximal frequency the one chosen is the lexicographically
smallest of them (mode() returns the maximal set sorted and the script
takes element 0): Bangalore for city (tied with Chennai) and Medium for
shirt size (tied with Small, whose first occurrence precedes); after
each fill the field has no missing values. -/
theorem claimC3_mode_imputation :
    city_mode = "Bangalore" ∧ size_mode = "Medium" ∧
    countS city_mode (colS df_clean3 "city") = maxCountS (colS df_clean3 "city") ∧
    countS size_mode (colS df_clean5 "shirt_size") =
      maxCountS (colS df_clean5 "shirt_size") ∧
    (∀ v ∈ dropDuplicatesList (colS df_clean3 "city"),
      countS v (colS df_clean3 "city") = maxCountS (colS df_clean3 "city") →
        strLt v city_mode = false) ∧
    (∀ v ∈ dropDuplicatesList (colS df_clean5 "shirt_size"),
      countS v (colS df_clean5 "shirt_size") =
          maxCountS (colS df_clean5 "shirt_size") →
        strLt v size_mode = false) ∧
    countNa df_clean4 "city" = 0 ∧ countNa df_clean6 "shirt_size" = 0 := by
  refine ⟨by decide, by decide, by decide, by decide, by decide, by decide,
    by decide, by decide⟩

theorem claimC3_witness :
    strLt "Chennai" city_mode = false :=
  claimC3_mode_imputation.2.2.2.2.1 "Chennai" (by decide) (by decide)

/-! ## Claim C4: IQR outlier capping -/

/-- Claim C4: the capping stage computes Q1 and Q3 by linear
interpolation (the fractional values 1137.5, 7042.6, 26.75 and 33.5
arise only from interpolation), sets the bounds at 1.5 IQR beyond the
quartiles, replaces values below the lower bound with it and values
above the upper bound with it while leaving in-range values and the row
count unchanged, caps purchase amount first and then age with the age
quartiles taken from the dataset state after purchase capping, and
afterwards every capped value lies within its field's bounds. -/
theorem claimC4_outlier_capping :
    df_clean8.nrows = df_clean7.nrows ∧ df_clean9.nrows = df_clean8.nrows ∧
    allWithinQ lower_limit upper_limit (colQ df_clean8 "purchase_amount") = true ∧
    allWithinQ lower_limit_age upper_limit_age (colQ df_clean9 "age") = true ∧
    ((colQ df_clean7 "purchase_amount").zip (colQ df_clean8 "purchase_amount")).all
      (fun p => if p.1.blt lower_limit then p.2 == lower_limit
        else if upper_limit.blt p.1 then p.2 == upper_limit
        else p.2 == p.1) = true ∧
    ((colQ df_clean8 "age").zip (colQ df_clean9 "age")).all
      (fun p => if p.1.blt lower_limit_age then p.2 == lower_limit_age
        else if upper_limit_age.blt p.1 then p.2 == upper_limit_age
        else p.2 == p.1) = true ∧
    toRat Q1 = 1137.5 ∧ toRat Q3 = 7042.6 ∧
    toRat Q1_age = 26.75 ∧ toRat Q3_age = 33.5 ∧
    toRat lower_limit = toRat Q1 - 1.5 * (toRat Q3 - toRat Q1) ∧
    toRat upper_limit = toRat Q3 + 1.5 * (toRat Q3 - toRat Q1) ∧
    toRat lower_limit_age = toRat Q1_age - 1.5 * (toRat Q3_age - toRat Q1_age) ∧
    toRat upper_limit_age = toRat Q3_age + 1.5 * (toRat Q3_age - toRat Q1_age) := by
  have hq1 : Q1 = ⟨2275, 2⟩ := by decide
  have hq3 : Q3 = ⟨35213, 5⟩ := by decide
  have hq1a : Q1_age = ⟨107, 4⟩ := by decide
  have hq3a : Q3_age = ⟨67, 2⟩ := by decide
  have hlo : lower_limit = ⟨-154403, 20⟩ := by decide
  have hhi : upper_limit = ⟨63601, 4⟩ := by decide
  have hloa : lower_limit_age = ⟨133, 8⟩ := by decide
  have hhia : upper_limit_age = ⟨349, 8⟩ := by decide
  refine ⟨by decide, by decide, by decide, by decide, by decide, by decide,
    ?_, ?_, ?_, ?_, ?_, ?_, ?_, ?_⟩
  · rw [hq1]; norm_num [toRat]
  · rw [hq3]; norm_num [toRat]
  · rw [hq1a]; norm_num [toRat]
  · rw [hq3a]; norm_num [toRat]
  · rw [hlo, hq1, hq3]; norm_num [toRat]
  · rw [hhi, hq1, hq3]; norm_num [toRat]
  · rw [hloa, hq1a, hq3a]; norm_num [toRat]
  · rw [hhia, hq1a, hq3a]; norm_num [toRat]

/-! ## Claim C5: mean imputation of the numeric fields -/

/-- Claim C5: the scalar substituted for every missing age and
purchase-amount entry is the arithmetic mean of that field's
non-missing values at the point of imputation — after duplicate
elimination and before outlier capping — non-missing entries are left
unchanged, and after the imputation stage no missing values remain in
the age, city, purchase-amount or size fields. -/
theorem claimC5_mean_imputation :
    countNa df_clean6 "age" = 0 ∧ countNa df_clean6 "city" = 0 ∧
    countNa df_clean6 "purchase_amount" = 0 ∧ countNa df_clean6 "shirt_size" = 0 ∧
    ((df_clean2.getCol "age").zip (df_clean3.getCol "age")).all
      (fun p => if p.1 == Cell.na then p.2 == Cell.q age_mean
        else p.2 == p.1) = true ∧
    ((df_clean4.getCol "purchase_amount").zip
        (df_clean5.getCol "purchase_amount")).all
      (fun p => if p.1 == Cell.na then p.2 == Cell.q purchase_mean
        else p.2 == p.1) = true ∧
    toRat age_mean = meanSpec (colQ df_clean2 "age") ∧
    toRat purchase_mean = meanSpec (colQ df_clean4 "purchase_amount") := by
  refine ⟨by decide, by decide, by decide, by decide, by decide, by decide,
    ?_, ?_⟩
  · rw [show age_mean = ⟨643, 18⟩ from by decide,
      show colQ df_clean2 "age" =
        [⟨25, 1⟩, ⟨30, 1⟩, ⟨28, 1⟩, ⟨35, 1⟩, ⟨25, 1⟩, ⟨30, 1⟩, ⟨28, 1⟩,
          ⟨40, 1⟩, ⟨22, 1⟩, ⟨150, 1⟩, ⟨28, 1⟩, ⟨33, 1⟩, ⟨29, 1⟩, ⟨31, 1⟩,
          ⟨27, 1⟩, ⟨26, 1⟩, ⟨32, 1⟩, ⟨24, 1⟩] from by decide]
    norm_num [meanSpec, toRat]
  · rw [show purchase_mean = ⟨35213, 5⟩ from by decide,
      show colQ df_clean4 "purchase_amount" =
        [⟨2401, 2⟩, ⟨8003, 10⟩, ⟨1500, 1⟩, ⟨2401, 2⟩, ⟨8003, 10⟩,
          ⟨2200, 1⟩, ⟨950, 1⟩, ⟨50000, 1⟩, ⟨1100, 1⟩, ⟨1300, 1⟩,
          ⟨1450, 1⟩, ⟨1800, 1⟩, ⟨1250, 1⟩, ⟨980, 1⟩, ⟨1150, 1⟩,
          ⟨45000, 1⟩] from by decide]
    norm_num [meanSpec, toRat]

/-! ## Claim C9: categorical encodings -/

/-- Claim C9: each encoding adds derived fields without removing its
source field — the one-hot city encoding produces five indicator
columns for the six distinct cities (k minus 1, dropping the
alphabetically first), every indicator cell is 0 or 1 with at most one
1 per row; the ordinal encodings rank shirt sizes by the supplied order
Small, Medium, Large, XL and grades by C, B, A; and the label encoding
maps product categories by ascending lexicographic order, Clothing to
0, Electronics to 1, Furniture to 2. -/
theorem claimC9_encodings :
    city_encoded.cols = ["city_Chennai", "city_Delhi", "city_Hyderabad",
      "city_Mumbai", "city_Pune"] ∧
    city_encoded.cols.length + 1 =
      (dropDuplicatesList (colS df_clean9 "city")).length ∧
    city_encoded.rows.length = df_clean9.nrows ∧
    (city_encoded.rows.all (fun r =>
      r.all (fun x => x == Cell.i 0 || x == Cell.i 1) &&
      decide ((r.filter (fun x => x == Cell.i 1)).length ≤ 1))) = true ∧
    (["city", "shirt_size", "grade", "product_category"].all
      (fun c => df_clean12.cols.contains c)) = true ∧
    (["size_encoded", "grade_encoded", "category_encoded"].all
      (fun c => df_clean12.cols.contains c)) = true ∧
    category_classes = ["Clothing", "Electronics", "Furniture"] ∧
    ((df_clean12.getCol "product_category").zip
        (df_clean12.getCol "category_encoded")).all
      (fun p => ((p.1 == Cell.s "Clothing") == (p.2 == Cell.i 0)) &&
        ((p.1 == Cell.s "Electronics") == (p.2 == Cell.i 1)) &&
        ((p.1 == Cell.s "Furniture") == (p.2 == Cell.i 2))) = true ∧
    ((df_clean12.getCol "shirt_size").zip
        (df_clean12.getCol "size_encoded")).all
      (fun p => ((p.1 == Cell.s "Small") == (p.2 == Cell.q ⟨0, 1⟩)) &&
        ((p.1 == Cell.s "Medium") == (p.2 == Cell.q ⟨1, 1⟩)) &&
        ((p.1 == Cell.s "Large") == (p.2 == Cell.q ⟨2, 1⟩)) &&
        ((p.1 == Cell.s "XL") == (p.2 == Cell.q ⟨3, 1⟩))) = true ∧
    ((df_clean12.getCol "grade").zip (df_clean12.getCol "grade_encoded")).all
      (fun p => ((p.1 == Cell.s "C") == (p.2 == Cell.q ⟨0, 1⟩)) &&
        ((p.1 == Cell.s "B") == (p.2 == Cell.q ⟨1, 1⟩)) &&
        ((p.1 == Cell.s "A") == (p.2 == Cell.q ⟨2, 1⟩))) = true := by
  refine ⟨by decide, by decide, by decide, by decide, by decide, by decide,
    by decide, by decide, by decide, by decide⟩

/-! ## Claim C10: the original table is never modified -/

/-- Claim C10: the cleaning pipeline works on a value copy of the
original 23-row table; every stage of the script state machine leaves
the df component untouched, so when the script ends the original table
still holds its 23 rows and original values, and the df_clean component
equals the staged pipeline result. -/
theorem claimC10_frame_preservation :
    finalState.df = df ∧ df.nrows = 23 ∧
    (∀ st, (stTypes st).df = st.df) ∧ (∀ st, (stDedup st).df = st.df) ∧
    (∀ st, (stImpute st).df = st.df) ∧ (∀ st, (stPrune st).df = st.df) ∧
    (∀ st, (stCapPurchase st).df = st.df) ∧
    (∀ st, (stCapAge st).df = st.df) ∧
    (∀ st, (stEncode st).df = st.df) ∧
    finalState.df_clean = df_clean12 := by
  refine ⟨rfl, by decide, fun st => rfl, fun st => rfl, fun st => rfl,
    fun st => rfl, fun st => rfl, fun st => rfl, fun st => rfl, by decide⟩
